import Mathlib

/-!
Shallow embedding of src/digital/v2.rs (embedded-hal, digital I/O v2 traits).

Modelling conventions:
* A Rust trait with an associated error type becomes a bundled structure whose
  first field is the type Error, mirroring `type Error` of the trait.
* A method taking `&mut self` and returning `Result<(), Self::Error>` becomes a
  function `P → P × Except Error Unit`: it may update the pin state and reports
  success or a driver error.
* A method taking `&self` (a shared, read-only receiver) and returning
  `Result<bool, Self::Error>` becomes a function `P → Except Error Bool`: it
  observes the state but cannot change it, exactly as a shared borrow without
  interior mutability cannot.
* `Result::Ok` is Except.ok and `Result::Err` is Except.error; the `?` operator
  is the explicit match that returns the error unchanged.
* The uninhabited error type (`!` / `Infallible`) is modelled by Empty.
-/

/-- Single digital push-pull output pin (trait OutputPin, src lines 6-21). -/
structure OutputPin (P : Type) : Type 1 where
  Error : Type
  set_low : P → P × Except Error Unit
  set_high : P → P × Except Error Unit

/-- Push-pull output pin that can read its output state
(trait StatefulOutputPin, src lines 27-37).  The supertrait bound
`StatefulOutputPin : OutputPin` is the structure extension, and the queries
share the associated Error of the base OutputPin. -/
structure StatefulOutputPin (P : Type) extends OutputPin P : Type 1 where
  is_set_high : P → Except Error Bool
  is_set_low : P → Except Error Bool

/-- Output pin that can be toggled (trait ToggleableOutputPin, src lines
48-54), with its own independently chosen associated Error type. -/
structure ToggleableOutputPin (P : Type) : Type 1 where
  Error : Type
  toggle : P → P × Except Error Unit

/-- Single digital input pin (trait InputPin, src lines 127-136). -/
structure InputPin (P : Type) : Type 1 where
  Error : Type
  is_high : P → Except Error Bool
  is_low : P → Except Error Bool

/-- The opt-in marker trait for the software toggle
(trait toggleable::Default, src line 107): it adds no operations, it only
requires OutputPin + StatefulOutputPin. -/
structure toggleable.Default (P : Type) extends StatefulOutputPin P : Type 1

/-- The derived toggle body (src lines 116-122):

  if self.is_set_low()? { self.set_high() } else { self.set_low() }

The match on the read is the `?` operator: an error is returned unchanged and
the pin state (behind a shared borrow during the read) is untouched. -/
def toggleable.toggle {P : Type} (d : toggleable.Default P) (p : P) :
    P × Except d.Error Unit :=
  match d.is_set_low p with
  | .error e => (p, .error e)
  | .ok true => d.set_high p
  | .ok false => d.set_low p

/-- The blanket impl (src lines 109-123): any type with the Default marker
gets a ToggleableOutputPin whose Error is `type Error = P::Error` and whose
toggle is the derived body. -/
def toggleable.derived {P : Type} (d : toggleable.Default P) :
    ToggleableOutputPin P :=
  { Error := d.Error, toggle := toggleable.toggle d }

/-- One recorded call to a stateful-output-pin operation, together with the
result the driver returned for it. -/
inductive Call (E : Type) : Type where
  | isSetLow (r : Except E Bool)
  | isSetHigh (r : Except E Bool)
  | setLow (r : Except E Unit)
  | setHigh (r : Except E Unit)

/-- Does the recorded call read the drive-high flag?  Used to state that the
derived toggle never consults is_set_high. -/
def Call.readsSetHigh {E : Type} : Call E → Bool
  | .isSetHigh _ => true
  | _ => false

/-- Syntax of straight-line programs over the four StatefulOutputPin
operations, in continuation style.  The derived toggle body is one such
program, so that which operations it invokes, and in which order, is a
provable statement rather than a convention. -/
inductive PinProg (E : Type) : Type → Type 1 where
  | pure {α : Type} (a : α) : PinProg E α
  | isSetLow {α : Type} (k : Except E Bool → PinProg E α) : PinProg E α
  | isSetHigh {α : Type} (k : Except E Bool → PinProg E α) : PinProg E α
  | setLow {α : Type} (k : Except E Unit → PinProg E α) : PinProg E α
  | setHigh {α : Type} (k : Except E Unit → PinProg E α) : PinProg E α

/-- Interpretation of a pin program against a StatefulOutputPin
implementation, threading the pin state and recording each call.  The
shared-receiver queries pass the state through unchanged; the mutating
operations replace it by the state the driver returns. -/
def run {P α : Type} (d : StatefulOutputPin P) :
    PinProg d.Error α → P → List (Call d.Error) → P × List (Call d.Error) × α
  | .pure a, p, log => (p, log, a)
  | .isSetLow k, p, log =>
      run d (k (d.is_set_low p)) p (log ++ [.isSetLow (d.is_set_low p)])
  | .isSetHigh k, p, log =>
      run d (k (d.is_set_high p)) p (log ++ [.isSetHigh (d.is_set_high p)])
  | .setLow k, p, log =>
      run d (k (d.set_low p).2) (d.set_low p).1 (log ++ [.setLow (d.set_low p).2])
  | .setHigh k, p, log =>
      run d (k (d.set_high p).2) (d.set_high p).1 (log ++ [.setHigh (d.set_high p).2])

/-- The derived toggle body (src lines 116-122) as a pin program: read
is_set_low, short-circuit its error, otherwise perform the one write. -/
def toggleProg (E : Type) : PinProg E (Except E Unit) :=
  .isSetLow fun r =>
    match r with
    | .error e => .pure (.error e)
    | .ok true => .setHigh .pure
    | .ok false => .setLow .pure

/-- One recorded call to an input-pin operation. -/
inductive InCall (E : Type) : Type where
  | isHigh (r : Except E Bool)
  | isLow (r : Except E Bool)

/-- Programs over the two InputPin query operations. -/
inductive InProg (E : Type) : Type → Type 1 where
  | pure {α : Type} (a : α) : InProg E α
  | isHigh {α : Type} (k : Except E Bool → InProg E α) : InProg E α
  | isLow {α : Type} (k : Except E Bool → InProg E α) : InProg E α

/-- Interpretation of an input program against an InputPin implementation.
Both operations take a shared receiver, so the state is passed through
unchanged. -/
def runIn {P α : Type} (i : InputPin P) :
    InProg i.Error α → P → List (InCall i.Error) → P × List (InCall i.Error) × α
  | .pure a, p, log => (p, log, a)
  | .isHigh k, p, log => runIn i (k (i.is_high p)) p (log ++ [.isHigh (i.is_high p)])
  | .isLow k, p, log => runIn i (k (i.is_low p)) p (log ++ [.isLow (i.is_low p)])

/-- The stateful-output contract obligation (spec section 3 invariant): after
a successful set_high the commanded-state queries answer high, and after a
successful set_low they answer low. -/
def StatefulContract {P : Type} (d : StatefulOutputPin P) : Prop :=
  (∀ p : P, (d.set_high p).2 = .ok () →
      d.is_set_high (d.set_high p).1 = .ok true ∧
      d.is_set_low (d.set_high p).1 = .ok false) ∧
  (∀ p : P, (d.set_low p).2 = .ok () →
      d.is_set_low (d.set_low p).1 = .ok true ∧
      d.is_set_high (d.set_low p).1 = .ok false)

/-- The pin p is in commanded state S: both stateful queries succeed and
agree that the commanded level is S. -/
def commandedState {P : Type} (d : StatefulOutputPin P) (p : P) (S : Bool) : Prop :=
  d.is_set_high p = .ok S ∧ d.is_set_low p = .ok (!S)

/-- The doc-example MyPin (src lines 64-98): a virtual output pin whose state
is one Bool, with the infallible error type, opted into the software toggle. -/
def myPin : toggleable.Default Bool :=
  { Error := Empty
  , set_low := fun _ => (false, .ok ())
  , set_high := fun _ => (true, .ok ())
  , is_set_low := fun state => .ok (!state)
  , is_set_high := fun state => .ok state }

/-- Concrete test driver for the write-error scenario: set_high always fails
with the fixed error value e and leaves the state untouched, everything else
behaves like the doc example. -/
def failHighPin (E : Type) (e : E) : toggleable.Default Bool :=
  { Error := E
  , set_low := fun _ => (false, .ok ())
  , set_high := fun state => (state, .error e)
  , is_set_low := fun state => .ok (!state)
  , is_set_high := fun state => .ok state }

/-- Concrete test driver whose commanded-state reads always fail with the
fixed error value 7. -/
def failReadPin : toggleable.Default Bool :=
  { Error := Nat
  , set_low := fun _ => (false, .ok ())
  , set_high := fun _ => (true, .ok ())
  , is_set_low := fun _ => .error 7
  , is_set_high := fun _ => .error 7 }

/-- Concrete test driver answering false to both commanded-state queries, a
legal driver since the interface imposes no complementarity on reads. -/
def vagueQueryPin : toggleable.Default Bool :=
  { Error := Unit
  , set_low := fun _ => (false, .ok ())
  , set_high := fun _ => (true, .ok ())
  , is_set_low := fun _ => .ok false
  , is_set_high := fun _ => .ok false }

/-- Concrete InputPin implementation with the infallible error type, used as
a test input for claims quantifying over input pins. -/
def constInput : InputPin Bool :=
  { Error := Empty
  , is_high := fun state => .ok state
  , is_low := fun state => .ok (!state) }

/-- Helper: under the stateful contract, one successful derived toggle from
commanded state S leaves the pin in commanded state not S. -/
lemma toggle_flips {P : Type} (d : toggleable.Default P)
    (hc : StatefulContract d.toStatefulOutputPin) (p : P) (S : Bool)
    (hS : commandedState d.toStatefulOutputPin p S)
    (hok : (toggleable.toggle d p).2 = .ok ()) :
    commandedState d.toStatefulOutputPin (toggleable.toggle d p).1 (!S) := by
  obtain ⟨hhi, hlo⟩ := hS
  cases S with
  | false =>
    have ht : toggleable.toggle d p = d.set_high p := by
      simp [toggleable.toggle, hlo]
    rw [ht] at hok ⊢
    obtain ⟨h1, h2⟩ := hc.1 p hok
    exact ⟨h1, h2⟩
  | true =>
    have ht : toggleable.toggle d p = d.set_low p := by
      simp [toggleable.toggle, hlo]
    rw [ht] at hok ⊢
    obtain ⟨h1, h2⟩ := hc.2 p hok
    exact ⟨h2, h1⟩

/-- C1: for every type opting into the default toggle rule, toggle first
calls is_set_low exactly once; on Ok true it calls set_high, on Ok false it
calls set_low, and it returns the result of that single write directly,
performing no other read or write.  Formally: the recorded call trace of the
toggle program is the one read followed by at most the one write, the final
state is the written state, and the returned value is the write result
(or the read error). -/
theorem toggle_calls_read_then_single_write {P : Type} (d : toggleable.Default P)
    (p : P) (r : Except d.Error Bool) (h : d.is_set_low p = r) :
    run d.toStatefulOutputPin (toggleProg d.Error) p [] =
      (match r with
        | .error e => (p, [Call.isSetLow (.error e)], Except.error e)
        | .ok true => ((d.set_high p).1,
            [Call.isSetLow (.ok true), Call.setHigh (d.set_high p).2],
            (d.set_high p).2)
        | .ok false => ((d.set_low p).1,
            [Call.isSetLow (.ok false), Call.setLow (d.set_low p).2],
            (d.set_low p).2)) := by
  cases r with
  | error e => simp [run, toggleProg, h]
  | ok b => cases b <;> simp [run, toggleProg, h]

/-- Witness for C1 at the doc-example pin in the low state: the trace is the
successful read followed by the one set_high call. -/
theorem toggle_calls_read_then_single_write_witness :
    run myPin.toStatefulOutputPin (toggleProg myPin.Error) false [] =
      ((myPin.set_high false).1,
        [Call.isSetLow (.ok true), Call.setHigh (myPin.set_high false).2],
        (myPin.set_high false).2) :=
  toggle_calls_read_then_single_write myPin false (.ok true) rfl

/-- C2: for every implementation satisfying the stateful-output contract and
every initial commanded state S, one successful derived toggle leaves the
commanded state at the complement of S, and two successful toggles in a row
restore the original S. -/
theorem toggle_complements_commanded_state {P : Type} (d : toggleable.Default P)
    (hc : StatefulContract d.toStatefulOutputPin) (p : P) (S : Bool)
    (hS : commandedState d.toStatefulOutputPin p S) :
    ((toggleable.toggle d p).2 = .ok () →
        commandedState d.toStatefulOutputPin (toggleable.toggle d p).1 (!S)) ∧
    ((toggleable.toggle d p).2 = .ok () →
      (toggleable.toggle d (toggleable.toggle d p).1).2 = .ok () →
        commandedState d.toStatefulOutputPin
          (toggleable.toggle d (toggleable.toggle d p).1).1 S) := by
  refine ⟨toggle_flips d hc p S hS, fun h1 h2 => ?_⟩
  have hflip := toggle_flips d hc p S hS h1
  have hback := toggle_flips d hc _ (!S) hflip h2
  simpa using hback

/-- Witness for C2 at the doc-example pin starting in commanded state low:
the contract and initial-state hypotheses are discharged concretely, one
toggle reaches commanded high, the second returns to commanded low. -/
theorem toggle_complements_commanded_state_witness :
    StatefulContract myPin.toStatefulOutputPin ∧
    commandedState myPin.toStatefulOutputPin false false ∧
    commandedState myPin.toStatefulOutputPin (toggleable.toggle myPin false).1 (!false) ∧
    commandedState myPin.toStatefulOutputPin
      (toggleable.toggle myPin (toggleable.toggle myPin false).1).1 false := by
  have hc : StatefulContract myPin.toStatefulOutputPin :=
    ⟨fun _ _ => ⟨rfl, rfl⟩, fun _ _ => ⟨rfl, rfl⟩⟩
  have hS : commandedState myPin.toStatefulOutputPin false false := ⟨rfl, rfl⟩
  exact ⟨hc, hS,
    (toggle_complements_commanded_state myPin hc false false hS).1 rfl,
    (toggle_complements_commanded_state myPin hc false false hS).2 rfl rfl⟩

/-- C3: if the initial is_set_low read fails with error e, the derived toggle
returns that same error, the pin state is unchanged, and the call trace shows
that no write was attempted. -/
theorem toggle_read_error_short_circuit {P : Type} (d : toggleable.Default P)
    (p : P) (e : d.Error) (h : d.is_set_low p = .error e) :
    toggleable.toggle d p = (p, .error e) ∧
    run d.toStatefulOutputPin (toggleProg d.Error) p [] =
      (p, [Call.isSetLow (.error e)], Except.error e) := by
  constructor
  · simp [toggleable.toggle, h]
  · simp [run, toggleProg, h]

/-- Witness for C3 at the test driver whose reads fail with 7. -/
theorem toggle_read_error_short_circuit_witness :
    toggleable.toggle failReadPin false = (false, .error (7 : Nat)) ∧
    run failReadPin.toStatefulOutputPin (toggleProg failReadPin.Error) false [] =
      (false, [Call.isSetLow (.error (7 : Nat))], Except.error (7 : Nat)) :=
  toggle_read_error_short_circuit failReadPin false (7 : Nat) rfl

/-- C4: for a pin in the commanded-low state whose set_high fails with the
fixed error value e without touching the state, one derived toggle returns
exactly e, and afterwards is_set_low still reports true. -/
theorem toggle_write_error_passthrough {P : Type} (d : toggleable.Default P)
    (p : P) (e : d.Error) (hread : d.is_set_low p = .ok true)
    (hfail : d.set_high p = (p, .error e)) :
    toggleable.toggle d p = (p, .error e) ∧
    d.is_set_low (toggleable.toggle d p).1 = .ok true := by
  have ht : toggleable.toggle d p = (p, .error e) := by
    simp [toggleable.toggle, hread, hfail]
  exact ⟨ht, by rw [ht]; exact hread⟩

/-- Witness for C4 at the concrete always-failing-set_high driver, from the
low state, with error value 42. -/
theorem toggle_write_error_passthrough_witness :
    toggleable.toggle (failHighPin Nat 42) false = (false, .error (42 : Nat)) ∧
    (failHighPin Nat 42).is_set_low
      (toggleable.toggle (failHighPin Nat 42) false).1 = .ok true :=
  toggle_write_error_passthrough (failHighPin Nat 42) false (42 : Nat) rfl rfl

/-- C5: when the associated error type is uninhabited, every operation of
every capability (set_low, set_high, is_set_high, is_set_low, is_high,
is_low, and the derived toggle) returns success; the error branch is
statically unreachable. -/
theorem infallible_operations_always_succeed {P : Type} (d : toggleable.Default P)
    (i : InputPin P) (hd : IsEmpty d.Error) (hi : IsEmpty i.Error) (p : P) :
    (d.set_low p).2 = .ok () ∧ (d.set_high p).2 = .ok () ∧
    (∃ b, d.is_set_high p = .ok b) ∧ (∃ b, d.is_set_low p = .ok b) ∧
    (∃ b, i.is_high p = .ok b) ∧ (∃ b, i.is_low p = .ok b) ∧
    (toggleable.toggle d p).2 = .ok () := by
  have hunit : ∀ r : Except d.Error Unit, r = .ok () := by
    intro r
    cases r with
    | error e => exact (hd.false e).elim
    | ok u => cases u; rfl
  have hbool : ∀ r : Except d.Error Bool, ∃ b, r = .ok b := by
    intro r
    cases r with
    | error e => exact (hd.false e).elim
    | ok b => exact ⟨b, rfl⟩
  have hbool2 : ∀ r : Except i.Error Bool, ∃ b, r = .ok b := by
    intro r
    cases r with
    | error e => exact (hi.false e).elim
    | ok b => exact ⟨b, rfl⟩
  refine ⟨hunit _, hunit _, hbool _, hbool _, hbool2 _, hbool2 _, ?_⟩
  unfold toggleable.toggle
  cases hr : d.is_set_low p with
  | error e => exact (hd.false e).elim
  | ok b => cases b <;> exact hunit _

/-- Witness for C5 at the doc-example pin (error type Empty) and a concrete
infallible input pin: every operation succeeds at state false. -/
theorem infallible_operations_always_succeed_witness :
    (myPin.set_low false).2 = .ok () ∧ (myPin.set_high false).2 = .ok () ∧
    (∃ b, myPin.is_set_high false = .ok b) ∧ (∃ b, myPin.is_set_low false = .ok b) ∧
    (∃ b, constInput.is_high false = .ok b) ∧ (∃ b, constInput.is_low false = .ok b) ∧
    (toggleable.toggle myPin false).2 = .ok () :=
  infallible_operations_always_succeed myPin constInput
    ⟨fun e => nomatch e⟩ ⟨fun e => nomatch e⟩ false

/-- C6: for the doc-example MyPin, after any successful set_high the query
is_set_high reports true and is_set_low reports false, and symmetrically
after any successful set_low. -/
theorem myPin_write_read_consistency (s : Bool) :
    ((myPin.set_high s).2 = .ok () →
        myPin.is_set_high (myPin.set_high s).1 = .ok true ∧
        myPin.is_set_low (myPin.set_high s).1 = .ok false) ∧
    ((myPin.set_low s).2 = .ok () →
        myPin.is_set_low (myPin.set_low s).1 = .ok true ∧
        myPin.is_set_high (myPin.set_low s).1 = .ok false) :=
  ⟨fun _ => ⟨rfl, rfl⟩, fun _ => ⟨rfl, rfl⟩⟩

/-- Witness for C6: both write-then-read directions evaluated at concrete
starting states, with the success hypotheses discharged by computation. -/
theorem myPin_write_read_consistency_witness :
    (myPin.is_set_high (myPin.set_high false).1 = .ok true ∧
      myPin.is_set_low (myPin.set_high false).1 = .ok false) ∧
    (myPin.is_set_low (myPin.set_low true).1 = .ok true ∧
      myPin.is_set_high (myPin.set_low true).1 = .ok false) :=
  ⟨(myPin_write_read_consistency false).1 rfl,
    (myPin_write_read_consistency true).2 rfl⟩

/-- C7: the blanket ToggleableOutputPin implementation declares its
associated Error to be the shared OutputPin and StatefulOutputPin error type
of the opted-in pin; it introduces no independent error type. -/
theorem derived_toggle_error_type_shared {P : Type} (d : toggleable.Default P) :
    (toggleable.derived d).Error = d.Error := rfl

/-- C8: the doc-example pin starting low: the first toggle succeeds and
leaves is_set_high true and is_set_low false; the second toggle succeeds and
leaves is_set_low true and is_set_high false. -/
theorem myPin_toggle_scenario :
    (toggleable.toggle myPin false).2 = .ok () ∧
    myPin.is_set_high (toggleable.toggle myPin false).1 = .ok true ∧
    myPin.is_set_low (toggleable.toggle myPin false).1 = .ok false ∧
    (toggleable.toggle myPin (toggleable.toggle myPin false).1).2 = .ok () ∧
    myPin.is_set_low
      (toggleable.toggle myPin (toggleable.toggle myPin false).1).1 = .ok true ∧
    myPin.is_set_high
      (toggleable.toggle myPin (toggleable.toggle myPin false).1).1 = .ok false :=
  ⟨rfl, rfl, rfl, rfl, rfl, rfl⟩

/-- C9: the shared-receiver queries is_set_high, is_set_low, is_high and
is_low have no side effect on the pin state: interpreting any single query
call against any implementation returns the state it was given. -/
theorem queries_leave_state_unchanged {P : Type} (d : StatefulOutputPin P)
    (i : InputPin P) (p : P) :
    (run d (.isSetHigh .pure) p []).1 = p ∧
    (run d (.isSetLow .pure) p []).1 = p ∧
    (runIn i (.isHigh .pure) p []).1 = p ∧
    (runIn i (.isLow .pure) p []).1 = p :=
  ⟨rfl, rfl, rfl, rfl⟩

/-- C10: the derived toggle never consults is_set_high (its call trace
contains no is_set_high call for any driver and any state), and an Ok false
answer from is_set_low makes it command the pin low via set_low. -/
theorem toggle_ignores_is_set_high {P : Type} (d : toggleable.Default P) (p : P) :
    ((run d.toStatefulOutputPin (toggleProg d.Error) p []).2.1.all
        fun c => ! c.readsSetHigh) = true ∧
    (d.is_set_low p = .ok false → toggleable.toggle d p = d.set_low p) := by
  constructor
  · cases hr : d.is_set_low p with
    | error e => simp [run, toggleProg, hr, Call.readsSetHigh]
    | ok b => cases b <;> simp [run, toggleProg, hr, Call.readsSetHigh]
  · intro h
    simp [toggleable.toggle, h]

/-- Witness for C10 at the driver answering false to both queries: the trace
is free of is_set_high calls and the toggle lands on set_low even though
is_set_high is also false. -/
theorem toggle_ignores_is_set_high_witness :
    ((run vagueQueryPin.toStatefulOutputPin (toggleProg vagueQueryPin.Error)
        true []).2.1.all fun c => ! c.readsSetHigh) = true ∧
    toggleable.toggle vagueQueryPin true = vagueQueryPin.set_low true :=
  ⟨(toggle_ignores_is_set_high vagueQueryPin true).1,
    (toggle_ignores_is_set_high vagueQueryPin true).2 rfl⟩
